import Mathlib

attribute [local semireducible] Rat.add Rat.mul Rat.inv Rat.sub

/-!
Verification of the data-preparation and chart-construction pipeline of the
polio-cases dashboard (`src/app.py`).

Tables are modelled as lists of structures, one structure per dataframe row.
Nullable columns are `Option` fields (pandas `NaN` = `none`).  Numeric values
are rationals; the one place where IEEE-754 special values matter — the
element-wise division `num_cases / total_pop * 1e6` on line 62 of `app.py`,
where a zero denominator yields an infinity rather than a null — is modelled
by the type `PFloat` below, which distinguishes finite values, signed
infinities and NaN.  `np.sqrt` in the bubble-size computation is modelled by
`Real.sqrt`.  Period labels `"{b}-{b+2}"` are represented by their bucket
start year `b` (the map from bucket to label is injective and
order-preserving on the 4-digit years the pipeline produces, so sorting
labels as strings coincides with sorting the bucket integers).
-/

/-- Model of a pandas float cell: NaN (which is also how pandas represents a
null numeric cell), a signed infinity, or a finite value. -/
inductive PFloat where
  | nan : PFloat
  | inf : Bool → PFloat
  | fin : ℚ → PFloat
deriving DecidableEq

/-- IEEE-754 style division as performed by numpy on float columns:
`x / 0` is a signed infinity for nonzero finite `x` and NaN for `x = 0`;
anything involving NaN is NaN.  (The denominators produced by the pipeline
are non-negative, so a zero denominator is modelled as `+0`.) -/
def PFloat.div : PFloat → PFloat → PFloat
  | nan, _ => nan
  | _, nan => nan
  | fin a, fin b =>
      if b = 0 then (if a = 0 then nan else inf (decide (0 < a)))
      else fin (a / b)
  | fin _, inf _ => fin 0
  | inf s, fin b => if b < 0 then inf (!s) else inf s
  | inf _, inf _ => nan

/-- IEEE-754 style multiplication as performed by numpy on float columns. -/
def PFloat.mul : PFloat → PFloat → PFloat
  | nan, _ => nan
  | _, nan => nan
  | fin a, fin b => fin (a * b)
  | inf s, fin b => if b = 0 then nan else if b < 0 then inf (!s) else inf s
  | fin a, inf s => if a = 0 then nan else if a < 0 then inf (!s) else inf s
  | inf s, inf t => inf (s == t)

/-- Test for the two infinities. -/
def PFloat.isInf : PFloat → Bool
  | inf _ => true
  | _ => false

/-- Line 62 of `app.py`:
`df_polio_clean['cases_per_million'] = (df_polio_clean['num_cases'] / df_polio_clean['total_pop']) * 1000000`. -/
def cases_per_million (num_cases total_pop : PFloat) : PFloat :=
  (num_cases.div total_pop).mul (PFloat.fin 1000000)

/-- Pandas `mean` aggregation over a column: NaN entries are skipped and an
all-NaN column has a NaN mean.  The argument is the list of non-null entries. -/
def meanO (l : List ℚ) : Option ℚ :=
  if l = [] then none else some (l.sum / l.length)

/-- A row of `df_polio_clean` (case data merged with metadata and population,
with the derived `cases_per_million` column).  Finite-or-null numeric cells
are `Option ℚ`. -/
structure CaseRow where
  country : String
  code : Option String
  year : Int
  num_cases : Option ℚ
  region : Option String
  income_group : Option String
  total_pop : Option ℚ
  cases_per_million : Option ℚ
deriving DecidableEq

/-- A row of `df_income_time`, the income-group/year aggregate. -/
structure IncomeAggRow where
  income_group : String
  year : Int
  cases_per_million : Option ℚ
  num_cases : ℚ
  total_pop : ℚ
  income_cases_per_million : ℚ
deriving DecidableEq

/-- The member rows of the `(income_group, year)` group: the rows of the
input whose `income_group` equals `some g` and whose year equals `y`. -/
def incomeGroupRows (rows : List CaseRow) (g : String) (y : Int) : List CaseRow :=
  rows.filter (fun r => r.income_group = some g && r.year = y)

/-- Lines 64–71 of `app.py`: drop rows with null `income_group`, group by
`(income_group, year)`, aggregate `cases_per_million` by mean and
`num_cases`, `total_pop` by sum (pandas sums skip NaN and give `0.0` for an
all-NaN group), then derive
`income_cases_per_million = num_cases / total_pop * 1e6` from the summed
columns. -/
def incomeAggRowOf (rows : List CaseRow) (k : String × Int) : IncomeAggRow :=
  { income_group := k.1
    year := k.2
    cases_per_million :=
      meanO ((incomeGroupRows rows k.1 k.2).filterMap (fun r => r.cases_per_million))
    num_cases := ((incomeGroupRows rows k.1 k.2).filterMap (fun r => r.num_cases)).sum
    total_pop := ((incomeGroupRows rows k.1 k.2).filterMap (fun r => r.total_pop)).sum
    income_cases_per_million :=
      ((incomeGroupRows rows k.1 k.2).filterMap (fun r => r.num_cases)).sum /
        ((incomeGroupRows rows k.1 k.2).filterMap (fun r => r.total_pop)).sum * 1000000 }

/-- Line 70: the full income-group aggregate, one row per distinct
`(income_group, year)` key drawn from rows with non-null `income_group`. -/
def df_income_time (rows : List CaseRow) : List IncomeAggRow :=
  ((rows.filterMap (fun r => r.income_group.map (fun g => (g, r.year)))).dedup).map
    (incomeAggRowOf rows)

/-- A row of `df_polio_vaccine` (`df_polio_clean` merged with the vaccine
table, adding `pol3_immunization_rate`). -/
structure PVRow where
  country : String
  code : Option String
  year : Int
  num_cases : Option ℚ
  region : Option String
  income_group : Option String
  total_pop : Option ℚ
  cases_per_million : Option ℚ
  pol3_immunization_rate : Option ℚ
deriving DecidableEq

/-- The non-null `pol3_immunization_rate` values of a country's rows. -/
def countryRates (rows : List PVRow) (c : String) : List ℚ :=
  (rows.filter (fun r => r.country = c)).filterMap (fun r => r.pol3_immunization_rate)

/-- Line 85 of `app.py`:
`country_means = df_polio_vaccine.groupby('country')['pol3_immunization_rate'].mean()` —
the mean of a country's non-null vaccination rates, NaN (`none`) when the
country has no non-null rate. -/
def country_means (rows : List PVRow) (c : String) : Option ℚ :=
  meanO (countryRates rows c)

/-- The effect of the loop body (lines 86–91 of `app.py`) on a single row:
a null `pol3_immunization_rate` cell is overwritten with the country mean
exactly when that mean is non-NaN; all other cells are untouched. -/
def imputeRow (rows : List PVRow) (r : PVRow) : PVRow :=
  match r.pol3_immunization_rate, country_means rows r.country with
  | none, some m => { r with pol3_immunization_rate := some m }
  | _, _ => r

/-- Lines 84–93 of `app.py`: per-country mean imputation of the
`pol3_immunization_rate` column of `df_polio_vaccine`. -/
def impute (rows : List PVRow) : List PVRow :=
  rows.map (imputeRow rows)

/-- Lines 204–214 of `app.py`: `get_vaccination_category`. -/
def get_vaccination_category (coverage : ℚ) : String :=
  if coverage ≥ 95 then "Muy Alta (≥95%)"
  else if coverage ≥ 85 then "Alta (85-94%)"
  else if coverage ≥ 70 then "Media (70-84%)"
  else if coverage ≥ 50 then "Baja (50-69%)"
  else "Muy Baja (<50%)"

/-- Line 191 of `app.py`: `((year - 1980) // 3) * 3 + 1980` (Python `//` is
floor division, hence `Int.fdiv`).  The period label is `"{b}-{b+2}"` for
bucket `b`; we identify labels with their buckets. -/
def year_group (y : Int) : Int :=
  (Int.fdiv (y - 1980) 3) * 3 + 1980

/-- Lines 187–188 of `app.py`: keep rows with non-null
`pol3_immunization_rate`, `cases_per_million` and `code`, whose code has
exactly three characters. -/
def passesMapFilter (r : PVRow) : Bool :=
  r.pol3_immunization_rate.isSome && r.cases_per_million.isSome &&
    (match r.code with
     | some c => c.length == 3
     | none => false)

/-- The groupby key of lines 195–199: `(country, code, year_group,
income_group)` (`period_label` is determined by `year_group`).  Pandas
`groupby` silently drops rows whose key contains a NaN, so a key exists only
when `code` and `income_group` are non-null. -/
structure MapKey where
  country : String
  code : String
  year_group : Int
  income_group : String
deriving DecidableEq

/-- The groupby key of a row, `none` when a key component is null. -/
def mapKeyOf (r : PVRow) : Option MapKey :=
  match r.code, r.income_group with
  | some c, some g => some ⟨r.country, c, year_group r.year, g⟩
  | _, _ => none

/-- A row of `df_combined_grouped` (lines 195–216): the per-(country,
period) aggregate.  `bubble_size` is the derived column added on lines
219–224 and is kept as a separate derived function (`bubble_size`) because
it is real-valued. -/
structure MapAggRow where
  country : String
  code : String
  year_group : Int
  income_group : String
  pol3_immunization_rate : ℚ
  cases_per_million : ℚ
  total_pop : Option ℚ
  vaccination_category : String
deriving DecidableEq

/-- Mean of a list of rationals (groups are nonempty, so the junk value at
`[]` is never used). -/
def meanQ (l : List ℚ) : ℚ :=
  l.sum / l.length

/-- Line 187–188 filter applied to the joined table. -/
def df_combined (rows : List PVRow) : List PVRow :=
  rows.filter passesMapFilter

/-- The member rows of a groupby key. -/
def mapGroupRows (rows : List PVRow) (k : MapKey) : List PVRow :=
  (df_combined rows).filter (fun r => mapKeyOf r = some k)

/-- The aggregate row of one groupby key: the mean-aggregated measure
columns of lines 195–199 and the derived `vaccination_category` of
line 216. -/
def mapAggRowOf (rows : List PVRow) (k : MapKey) : MapAggRow :=
  { country := k.country
    code := k.code
    year_group := k.year_group
    income_group := k.income_group
    pol3_immunization_rate :=
      meanQ ((mapGroupRows rows k).filterMap (fun r => r.pol3_immunization_rate))
    cases_per_million :=
      meanQ ((mapGroupRows rows k).filterMap (fun r => r.cases_per_million))
    total_pop := meanO ((mapGroupRows rows k).filterMap (fun r => r.total_pop))
    vaccination_category :=
      get_vaccination_category
        (meanQ ((mapGroupRows rows k).filterMap (fun r => r.pol3_immunization_rate))) }

/-- Lines 187–224 of `app.py`: the per-(country, code, period,
income-group) aggregate `df_combined_grouped`. -/
def df_combined_grouped (rows : List PVRow) : List MapAggRow :=
  (((df_combined rows).filterMap mapKeyOf).dedup).map (mapAggRowOf rows)

/-- Numpy clip: `np.clip(x, lo, hi)` = `np.minimum(hi, np.maximum(x, lo))`. -/
noncomputable def clip (x lo hi : ℝ) : ℝ :=
  min hi (max x lo)

/-- Lines 219–224 of `app.py`: the `bubble_size` column,
`np.clip(np.where(c > 0, np.sqrt(c) * 8 + 5, 3), 3, 40)` where `c` is the
aggregated `cases_per_million`. -/
noncomputable def bubble_size (c : ℚ) : ℝ :=
  clip (if 0 < c then Real.sqrt (c : ℝ) * 8 + 5 else 3) 3 40

/-- Lines 227–246 of `app.py`: the static `country_coords` lookup table. -/
def country_coords : List (String × ℚ × ℚ) :=
  [("Afghanistan", 33.0, 65.0), ("Algeria", 28.0, 3.0), ("Angola", -12.0, 18.5),
   ("Argentina", -34.0, -64.0), ("Australia", -25.0, 133.0), ("Bangladesh", 24.0, 90.0),
   ("Brazil", -14.0, -51.0), ("Canada", 60.0, -95.0), ("Chad", 15.0, 19.0),
   ("Chile", -30.0, -71.0), ("China", 35.0, 105.0), ("Colombia", 4.0, -72.0),
   ("Congo", -1.0, 15.0), ("Egypt", 26.0, 30.0), ("Ethiopia", 9.1, 40.5),
   ("France", 46.0, 2.0), ("Germany", 51.0, 9.0), ("Ghana", 7.9, -1.0),
   ("India", 20.0, 77.0), ("Indonesia", -0.8, 113.9), ("Iran", 32.4, 53.7),
   ("Iraq", 33.2, 43.7), ("Kazakhstan", 48.0, 66.9), ("Kenya", -0.0, 37.9),
   ("Libya", 26.3, 17.2), ("Madagascar", -18.8, 47.0), ("Mali", 17.6, -3.0),
   ("Mexico", 23.6, -102.5), ("Mongolia", 46.9, 103.8), ("Morocco", 31.8, -7.1),
   ("Myanmar", 21.9, 95.9), ("Niger", 17.6, 8.1), ("Nigeria", 9.1, 8.7),
   ("Pakistan", 30.4, 69.3), ("Peru", -9.2, -75.0), ("Philippines", 12.9, 121.8),
   ("Russia", 61.5, 105.3), ("Saudi Arabia", 23.9, 45.1), ("Somalia", 5.2, 46.2),
   ("South Africa", -30.6, 22.9), ("Sudan", 12.9, 30.2), ("Tanzania", -6.4, 34.9),
   ("Thailand", 15.9, 100.6), ("Turkey", 38.8, 35.2), ("Ukraine", 48.4, 31.2),
   ("United Kingdom", 55.4, -3.4), ("United States", 37.1, -95.7),
   ("Uzbekistan", 41.4, 64.6), ("Venezuela", 6.4, -66.6), ("Vietnam", 14.1, 108.3),
   ("Yemen", 15.6, 48.0), ("Zambia", -13.1, 27.8)]

/-- Coordinate lookup (lines 249–254): `country_coords.get(x, [None, None])`. -/
def coordsOf (c : String) : Option (ℚ × ℚ) :=
  (country_coords.find? (fun p => p.1 = c)).map (fun p => p.2)

/-- Lines 257–261 of `app.py`: `df_scatter_overlay` — aggregate rows with
non-null coordinates and non-negative `cases_per_million`. -/
def df_scatter_overlay (rows : List PVRow) : List MapAggRow :=
  (df_combined_grouped rows).filter
    (fun a => (coordsOf a.country).isSome && decide (0 ≤ a.cases_per_million))

/-- The distinct period labels of the aggregate, sorted ascending
(line 316: `sorted(df_combined_grouped['period_label'].unique())`). -/
def sorted_period_labels (rows : List PVRow) : List Int :=
  List.insertionSort (fun a b => a ≤ b)
    (((df_combined_grouped rows).map (fun a => a.year_group)).dedup)

/-- The two kinds of traces a frame can carry. -/
inductive LayerKind where
  | choropleth : LayerKind
  | point : LayerKind
deriving DecidableEq

/-- The layer list of one animation frame (lines 320–356): always a
`go.Choropleth`, plus a `go.Scattergeo` only when the period has at least
one scatter-overlay row (`if len(period_scatter) > 0`). -/
def frameLayers (rows : List PVRow) (p : Int) : List LayerKind :=
  LayerKind.choropleth ::
    (if (df_scatter_overlay rows).filter (fun a => a.year_group = p) = []
     then [] else [LayerKind.point])

/-- Lines 314–360 of `app.py`: the animation frame list — one frame (named
by its period label, modelled by the bucket start year) per distinct period,
in ascending order. -/
def frames (rows : List PVRow) : List (Int × List LayerKind) :=
  (sorted_period_labels rows).map (fun p => (p, frameLayers rows p))

/-- Lexicographic code-point comparison of character lists — the order
Python uses on strings and pandas uses when `pivot` sorts its column and
index labels. -/
def charListLe : List Char → List Char → Bool
  | [], _ => true
  | _ :: _, [] => false
  | c :: cs, d :: ds => if c < d then true else if d < c then false else charListLe cs ds

/-- The (non-strict) string order. -/
def strLe (a b : String) : Prop :=
  charListLe a.data b.data = true

instance : DecidableRel strLe :=
  fun a b => inferInstanceAs (Decidable (charListLe a.data b.data = true))

/-- The strict string order, as needed for tie-breaking statements:
`strLe` together with distinctness. -/
def strLt (a b : String) : Prop :=
  strLe a b ∧ a ≠ b

/-- The pivot's column labels (line 102: `df_income_time.pivot(index='year',
columns='income_group', values='income_cases_per_million')`): the distinct
income groups, sorted ascending — pandas `pivot` sorts the column labels. -/
def stacked_columns (rows : List IncomeAggRow) : List String :=
  List.insertionSort strLe ((rows.map (fun r => r.income_group)).dedup)

/-- The pivot's index: the distinct years, sorted ascending. -/
def stacked_years (rows : List IncomeAggRow) : List Int :=
  List.insertionSort (fun a b => a ≤ b) ((rows.map (fun r => r.year)).dedup)

/-- The pivot cell for `(year, income_group)` after `fillna(0)` (line 103):
the group's `income_cases_per_million`, or `0` for a missing combination.
(`pivot` raises on duplicate pairs; the model keeps the first match, which
is exercised only on duplicate-free inputs such as `df_income_time`.) -/
def stacked_value (rows : List IncomeAggRow) (g : String) (y : Int) : ℚ :=
  match rows.find? (fun r => r.income_group = g && r.year = y) with
  | some r => r.income_cases_per_million
  | none => 0

/-- Line 117: `df_stacked.mean()` — the per-column mean of the 0-filled
pivot, i.e. the sum of the column's cells over all index years divided by
the number of index years. -/
def income_group_averages (rows : List IncomeAggRow) (g : String) : ℚ :=
  meanQ ((stacked_years rows).map (stacked_value rows g))

/-- Lines 117–118: `df_stacked.mean().sort_values(ascending=False).index`.
Pandas `sort_values(ascending=False)` reverses the values, applies
`argsort`, and reverses the result, so with a stable `argsort` it is a
stable descending sort of the column order; numpy's `quicksort` is an
introsort that runs plain (stable) insertion sort on fewer than 17
elements, which covers every column count this pipeline can produce.
Modelled as a stable insertion sort with the descending comparison. -/
def income_groups (rows : List IncomeAggRow) : List String :=
  List.insertionSort
    (fun a b => income_group_averages rows b ≤ income_group_averages rows a)
    (stacked_columns rows)

/-- Concrete input for the animated-map claims: one country with known
coordinates in the 1980–1982 period, one country absent from the
coordinate table in the 1983–1985 period. -/
def exC2 : List PVRow :=
  [{ country := "Afghanistan", code := some "AFG", year := 1980, num_cases := some 10,
     region := some "South Asia", income_group := some "Low income",
     total_pop := some 1000000, cases_per_million := some 10,
     pol3_immunization_rate := some 20 },
   { country := "Xlandia", code := some "XLD", year := 1983, num_cases := some 5,
     region := none, income_group := some "Low income", total_pop := some 1000000,
     cases_per_million := some 5, pol3_immunization_rate := some 30 }]
/-- The aggregate row the first `exC2` record produces. -/
def exMapAggRow : MapAggRow :=
  { country := "Afghanistan", code := "AFG", year_group := 1980,
    income_group := "Low income", pol3_immunization_rate := 20,
    cases_per_million := 10, total_pop := some 1000000,
    vaccination_category := "Muy Baja (<50%)" }
/-- Concrete input for the income-aggregate claim. -/
def exC3 : List CaseRow :=
  [{ country := "A", code := some "AAA", year := 2000, num_cases := some 5,
     region := none, income_group := some "Low income", total_pop := some 2,
     cases_per_million := some 7 }]
/-- The aggregate row `exC3` produces. -/
def exIncomeAggRow : IncomeAggRow :=
  { income_group := "Low income", year := 2000, cases_per_million := some 7,
    num_cases := 5, total_pop := 2, income_cases_per_million := 2500000 }
/-- Concrete input for the imputer claims: country "A" has rates
`[30, null, 50]`, so the null cell is filled with the mean 40. -/
def exC5 : List PVRow :=
  [{ country := "A", code := some "AAA", year := 2000, num_cases := some 1, region := none,
     income_group := some "Low income", total_pop := some 10, cases_per_million := some 1,
     pol3_immunization_rate := some 30 },
   { country := "A", code := some "AAA", year := 2001, num_cases := some 1, region := none,
     income_group := some "Low income", total_pop := some 10, cases_per_million := some 1,
     pol3_immunization_rate := none },
   { country := "A", code := some "AAA", year := 2002, num_cases := some 1, region := none,
     income_group := some "Low income", total_pop := some 10, cases_per_million := some 1,
     pol3_immunization_rate := some 50 }]
/-- The second row of `exC5` (the null vaccination cell). -/
def exC5row2 : PVRow :=
  { country := "A", code := some "AAA", year := 2001, num_cases := some 1, region := none,
    income_group := some "Low income", total_pop := some 10, cases_per_million := some 1,
    pol3_immunization_rate := none }
/-- The second row of `exC5` after imputation. -/
def exC5row2i : PVRow :=
  { exC5row2 with pol3_immunization_rate := some 40 }
/-- Concrete row for C9: it passes the documented pre-filter (non-null
vaccination rate and cases-per-million, 3-letter code) yet its
`income_group` is null. -/
def exC9row : PVRow :=
  { country := "Nowhere", code := some "NWH", year := 1990, num_cases := some 1,
    region := none, income_group := none, total_pop := some 10,
    cases_per_million := some 100000, pol3_immunization_rate := some 50 }
/-- The relation that holds between two series in the emitted stacking
order: strictly larger mean first, ties in the pivot's (ascending
alphabetical) column order. -/
def descKey (m : String → ℚ) (a b : String) : Prop :=
  m b < m a ∨ (m a = m b ∧ strLt a b)
/-- Concrete input for the stacking-order claim: one year, income groups
with mean values A = 5, B = 10, C = 1. -/
def exC6 : List IncomeAggRow :=
  [{ income_group := "A", year := 2000, cases_per_million := some 5, num_cases := 5,
     total_pop := 1000000, income_cases_per_million := 5 },
   { income_group := "B", year := 2000, cases_per_million := some 10, num_cases := 10,
     total_pop := 1000000, income_cases_per_million := 10 },
   { income_group := "C", year := 2000, cases_per_million := some 1, num_cases := 1,
     total_pop := 1000000, income_cases_per_million := 1 }]

/-- Multiplying an infinity by the positive constant `1e6` keeps the
infinity and its sign. -/
lemma PFloat.mul_inf_million (s : Bool) :
    PFloat.mul (PFloat.inf s) (PFloat.fin 1000000) = PFloat.inf s := by
  show (if (1000000 : ℚ) = 0 then PFloat.nan
        else if (1000000 : ℚ) < 0 then PFloat.inf (!s) else PFloat.inf s) = PFloat.inf s
  norm_num

/-- C1 counterexample: at `num_cases = 1`, `total_pop = 0` — a row the claim
says must get a null `cases_per_million` — the float division of line 62
produces `+inf`, which is not null, so the claim's "null iff `total_pop` is
null or zero" and "never produces infinity" both fail. -/
theorem C1_counterexample :
    cases_per_million (PFloat.fin 1) (PFloat.fin 0) = PFloat.inf true ∧
    cases_per_million (PFloat.fin 1) (PFloat.fin 0) ≠ PFloat.nan ∧
    (cases_per_million (PFloat.fin 1) (PFloat.fin 0)).isInf = true := by
  decide

/-- C1 (amended): for finite-or-null `num_cases` and `total_pop`, the derived
`cases_per_million` of line 62 is null iff `num_cases` is null, `total_pop`
is null, or both are zero; it is a (signed) infinity exactly when
`total_pop` is zero and `num_cases` is finite nonzero; in all remaining
cases it equals `num_cases / total_pop * 1e6`.  The computation is a total
function, so it never raises. -/
theorem C1_amended (n p : PFloat) (hn : n.isInf = false) (hp : p.isInf = false) :
    (cases_per_million n p = PFloat.nan ↔
      n = PFloat.nan ∨ p = PFloat.nan ∨ (n = PFloat.fin 0 ∧ p = PFloat.fin 0)) ∧
    ((cases_per_million n p).isInf = true ↔
      p = PFloat.fin 0 ∧ ∃ q : ℚ, q ≠ 0 ∧ n = PFloat.fin q) ∧
    (∀ a b : ℚ, n = PFloat.fin a → p = PFloat.fin b → b ≠ 0 →
      cases_per_million n p = PFloat.fin (a / b * 1000000)) := by
  cases n with
  | inf s => simp [PFloat.isInf] at hn
  | nan =>
    cases p with
    | inf s => simp [PFloat.isInf] at hp
    | nan => simp [cases_per_million, PFloat.div, PFloat.mul, PFloat.isInf]
    | fin b => simp [cases_per_million, PFloat.div, PFloat.mul, PFloat.isInf]
  | fin a =>
    cases p with
    | inf s => simp [PFloat.isInf] at hp
    | nan => simp [cases_per_million, PFloat.div, PFloat.mul, PFloat.isInf]
    | fin b =>
      by_cases hb : b = 0
      · subst hb
        by_cases ha : a = 0
        · subst ha
          simp [cases_per_million, PFloat.div, PFloat.mul, PFloat.isInf]
        · have h1 : cases_per_million (PFloat.fin a) (PFloat.fin 0) =
              PFloat.inf (decide (0 < a)) := by
            unfold cases_per_million
            rw [show PFloat.div (PFloat.fin a) (PFloat.fin 0) =
                PFloat.inf (decide (0 < a)) by simp [PFloat.div, ha]]
            exact PFloat.mul_inf_million _
          rw [h1]
          refine ⟨by simp [ha], ?_, ?_⟩
          · simp only [PFloat.isInf, true_iff]
            exact ⟨trivial, a, ha, rfl⟩
          · intro a' b' _ hb' _
            cases hb'
            simp_all
      · have h1 : cases_per_million (PFloat.fin a) (PFloat.fin b) =
            PFloat.fin (a / b * 1000000) := by
          unfold cases_per_million
          rw [show PFloat.div (PFloat.fin a) (PFloat.fin b) = PFloat.fin (a / b) by
            simp [PFloat.div, hb]]
          rfl
        rw [h1]
        refine ⟨by simp [hb], by simp [PFloat.isInf, hb], ?_⟩
        intro a' b' ha' hb' _
        cases ha'; cases hb'; rfl

/-- C1 witness: a concrete row with `num_cases = 2` and `total_pop = 4`
gets `cases_per_million = 2 / 4 * 1e6 = 500000`. -/
theorem C1_witness :
    cases_per_million (PFloat.fin 2) (PFloat.fin 4) = PFloat.fin 500000 := by
  have h := (C1_amended (PFloat.fin 2) (PFloat.fin 4) rfl rfl).2.2 2 4 rfl rfl (by norm_num)
  simpa [show (2 : ℚ) / 4 * 1000000 = 500000 by norm_num] using h

/-- Threshold characterisation of `get_vaccination_category`. -/
lemma get_vaccination_category_iff (c : ℚ) :
    (get_vaccination_category c = "Muy Alta (≥95%)" ↔ 95 ≤ c) ∧
    (get_vaccination_category c = "Alta (85-94%)" ↔ 85 ≤ c ∧ c < 95) ∧
    (get_vaccination_category c = "Media (70-84%)" ↔ 70 ≤ c ∧ c < 85) ∧
    (get_vaccination_category c = "Baja (50-69%)" ↔ 50 ≤ c ∧ c < 70) ∧
    (get_vaccination_category c = "Muy Baja (<50%)" ↔ c < 50) := by
  unfold get_vaccination_category
  split_ifs with h1 h2 h3 h4 <;>
    refine ⟨?_, ?_, ?_, ?_, ?_⟩ <;>
      simp_all <;>
        first
          | linarith
          | (intro h; linarith)

/-- The classifier always lands in the five-category list. -/
lemma get_vaccination_category_mem (c : ℚ) :
    get_vaccination_category c ∈
      ["Muy Alta (≥95%)", "Alta (85-94%)", "Media (70-84%)", "Baja (50-69%)",
       "Muy Baja (<50%)"] := by
  unfold get_vaccination_category
  split_ifs <;> simp

/-- C7: `get_vaccination_category` maps every rate to exactly one of five
ordered categories with the fixed thresholds rate ≥ 95 → Muy Alta (very
high), 85 ≤ rate < 95 → Alta (high), 70 ≤ rate < 85 → Media (medium),
50 ≤ rate < 70 → Baja (low), rate < 50 → Muy Baja (very low); in
particular 95, 94.999, 85, 84.999, 70, 69.999, 50 and 49.999 land in the
categories the claim lists. -/
theorem C7_vaccination_category (c : ℚ) :
    (get_vaccination_category c = "Muy Alta (≥95%)" ↔ 95 ≤ c) ∧
    (get_vaccination_category c = "Alta (85-94%)" ↔ 85 ≤ c ∧ c < 95) ∧
    (get_vaccination_category c = "Media (70-84%)" ↔ 70 ≤ c ∧ c < 85) ∧
    (get_vaccination_category c = "Baja (50-69%)" ↔ 50 ≤ c ∧ c < 70) ∧
    (get_vaccination_category c = "Muy Baja (<50%)" ↔ c < 50) ∧
    get_vaccination_category c ∈
      ["Muy Alta (≥95%)", "Alta (85-94%)", "Media (70-84%)", "Baja (50-69%)",
       "Muy Baja (<50%)"] ∧
    (["Muy Alta (≥95%)", "Alta (85-94%)", "Media (70-84%)", "Baja (50-69%)",
       "Muy Baja (<50%)"] : List String).Nodup ∧
    (get_vaccination_category 95 = "Muy Alta (≥95%)" ∧
     get_vaccination_category (94999 / 1000) = "Alta (85-94%)" ∧
     get_vaccination_category 85 = "Alta (85-94%)" ∧
     get_vaccination_category (84999 / 1000) = "Media (70-84%)" ∧
     get_vaccination_category 70 = "Media (70-84%)" ∧
     get_vaccination_category (69999 / 1000) = "Baja (50-69%)" ∧
     get_vaccination_category 50 = "Baja (50-69%)" ∧
     get_vaccination_category (49999 / 1000) = "Muy Baja (<50%)") := by
  have h := get_vaccination_category_iff c
  exact ⟨h.1, h.2.1, h.2.2.1, h.2.2.2.1, h.2.2.2.2,
    get_vaccination_category_mem c, by decide, by decide⟩

/-- The bubble size is at least the lower clip bound 3. -/
lemma bubble_size_lb (c : ℚ) : 3 ≤ bubble_size c := by
  unfold bubble_size clip
  exact le_min (by norm_num) (le_max_right _ _)

/-- The bubble size is at most the upper clip bound 40. -/
lemma bubble_size_ub (c : ℚ) : bubble_size c ≤ 40 := by
  unfold bubble_size clip
  exact min_le_left _ _

/-- The pre-clip bubble value is monotone in `cases_per_million`. -/
lemma bubble_raw_mono {c c' : ℚ} (h : c ≤ c') :
    (if 0 < c then Real.sqrt (c : ℝ) * 8 + 5 else 3) ≤
      (if 0 < c' then Real.sqrt (c' : ℝ) * 8 + 5 else 3) := by
  split_ifs with h1 h2 h2
  · have hs : Real.sqrt (c : ℝ) ≤ Real.sqrt (c' : ℝ) :=
      Real.sqrt_le_sqrt (by exact_mod_cast h)
    linarith
  · exact absurd (lt_of_lt_of_le h1 h) h2
  · have hs : (0 : ℝ) ≤ Real.sqrt (c' : ℝ) := Real.sqrt_nonneg _
    linarith
  · exact le_refl _

/-- The bubble size is monotone non-decreasing in `cases_per_million`. -/
lemma bubble_size_mono {c c' : ℚ} (h : c ≤ c') : bubble_size c ≤ bubble_size c' := by
  unfold bubble_size clip
  exact min_le_min (le_refl _) (max_le_max (bubble_raw_mono h) (le_refl _))

/-- On non-negative inputs, the bubble size is 3 at 0 and the clipped
`sqrt`-formula elsewhere. -/
lemma bubble_size_eq {c : ℚ} (h : 0 ≤ c) :
    bubble_size c = if c = 0 then 3 else clip (Real.sqrt (c : ℝ) * 8 + 5) 3 40 := by
  by_cases hc : c = 0
  · subst hc
    unfold bubble_size clip
    norm_num
  · have hpos : 0 < c := lt_of_le_of_ne h (Ne.symm hc)
    unfold bubble_size
    rw [if_pos hpos, if_neg hc]

/-- C8: for every row of the period aggregate, the derived bubble size is 3
when `cases_per_million` is 0 and `clip(sqrt(cases_per_million) * 8 + 5, 3,
40)` otherwise (stated for the non-negative values the formula is defined
on), always lies in `[3, 40]`, and is monotone non-decreasing in
`cases_per_million`. -/
theorem C8_bubble_size (rows : List PVRow) (a : MapAggRow)
    (_ha : a ∈ df_combined_grouped rows) (c' : ℚ) :
    (3 ≤ bubble_size a.cases_per_million ∧ bubble_size a.cases_per_million ≤ 40) ∧
    (a.cases_per_million ≤ c' → bubble_size a.cases_per_million ≤ bubble_size c') ∧
    (c' ≤ a.cases_per_million → bubble_size c' ≤ bubble_size a.cases_per_million) ∧
    (0 ≤ a.cases_per_million →
      bubble_size a.cases_per_million =
        if a.cases_per_million = 0 then 3
        else clip (Real.sqrt ((a.cases_per_million : ℚ) : ℝ) * 8 + 5) 3 40) :=
  ⟨⟨bubble_size_lb _, bubble_size_ub _⟩, fun h => bubble_size_mono h,
    fun h => bubble_size_mono h, fun h => bubble_size_eq h⟩



/-- C8 witness: the claim instantiated on the aggregate row of the concrete
input `exC2`. -/
theorem C8_witness :
    (3 ≤ bubble_size exMapAggRow.cases_per_million ∧
      bubble_size exMapAggRow.cases_per_million ≤ 40) ∧
    (exMapAggRow.cases_per_million ≤ 100 →
      bubble_size exMapAggRow.cases_per_million ≤ bubble_size 100) ∧
    (100 ≤ exMapAggRow.cases_per_million →
      bubble_size 100 ≤ bubble_size exMapAggRow.cases_per_million) ∧
    (0 ≤ exMapAggRow.cases_per_million →
      bubble_size exMapAggRow.cases_per_million =
        if exMapAggRow.cases_per_million = 0 then 3
        else clip (Real.sqrt ((exMapAggRow.cases_per_million : ℚ) : ℝ) * 8 + 5) 3 40) :=
  C8_bubble_size exC2 exMapAggRow (by decide) 100



/-- C3: the `(income_group, year)` keys of the income aggregate are unique,
each aggregate row's `income_cases_per_million` is derived from the
per-group sums as `sum(num_cases) / sum(total_pop) * 1e6` while its
`cases_per_million` is the per-row mean, both columns are retained, the
group members are exactly the input rows carrying that non-null
`income_group` and `year`, and every key comes from such a row. -/
theorem C3_income_aggregate (rows : List CaseRow) :
    ((df_income_time rows).map (fun a => (a.income_group, a.year))).Nodup ∧
    ∀ a ∈ df_income_time rows,
      a.income_cases_per_million = a.num_cases / a.total_pop * 1000000 ∧
      a.num_cases =
        ((incomeGroupRows rows a.income_group a.year).filterMap
          (fun r => r.num_cases)).sum ∧
      a.total_pop =
        ((incomeGroupRows rows a.income_group a.year).filterMap
          (fun r => r.total_pop)).sum ∧
      a.cases_per_million =
        meanO ((incomeGroupRows rows a.income_group a.year).filterMap
          (fun r => r.cases_per_million)) ∧
      (∀ r ∈ incomeGroupRows rows a.income_group a.year,
        r.income_group = some a.income_group ∧ r.year = a.year) ∧
      ∃ r ∈ rows, r.income_group = some a.income_group ∧ r.year = a.year := by
  constructor
  · unfold df_income_time
    rw [List.map_map]
    have h : ((fun a : IncomeAggRow => (a.income_group, a.year)) ∘ incomeAggRowOf rows) =
        fun k : String × Int => k := by
      funext k
      rfl
    rw [h]
    simpa using List.nodup_dedup _
  · intro a ha
    unfold df_income_time at ha
    rw [List.mem_map] at ha
    obtain ⟨k, hk, rfl⟩ := ha
    rw [List.mem_dedup, List.mem_filterMap] at hk
    obtain ⟨r, hr, hmap⟩ := hk
    rw [Option.map_eq_some'] at hmap
    obtain ⟨g, hg, hgk⟩ := hmap
    refine ⟨rfl, rfl, rfl, rfl, ?_, ?_⟩
    · intro r' hr'
      rw [incomeGroupRows, List.mem_filter] at hr'
      have h2 := hr'.2
      simp only [Bool.and_eq_true, decide_eq_true_eq] at h2
      exact h2
    · subst hgk
      exact ⟨r, hr, hg, rfl⟩

/-- C3 witness: the claim instantiated on the one-row concrete table `exC3`. -/
theorem C3_witness :
    exIncomeAggRow.income_cases_per_million =
      exIncomeAggRow.num_cases / exIncomeAggRow.total_pop * 1000000 ∧
    exIncomeAggRow.num_cases =
      ((incomeGroupRows exC3 exIncomeAggRow.income_group exIncomeAggRow.year).filterMap
        (fun r => r.num_cases)).sum := by
  have h := (C3_income_aggregate exC3).2 exIncomeAggRow (by decide)
  exact ⟨h.1, h.2.1⟩

/-- Zipping a list with its image pairs each element with its own image. -/
lemma zip_map_self {α β : Type} (f : α → β) :
    ∀ (l : List α) (q : α × β), q ∈ l.zip (l.map f) → q.2 = f q.1 ∧ q.1 ∈ l := by
  intro l
  induction l with
  | nil => intro q h; simp at h
  | cons a t ih =>
    intro q h
    rw [List.map_cons, List.zip_cons_cons, List.mem_cons] at h
    rcases h with rfl | h
    · exact ⟨rfl, List.mem_cons_self _ _⟩
    · exact ⟨(ih q h).1, List.mem_cons_of_mem _ (ih q h).2⟩

/-- The imputation step changes no field other than
`pol3_immunization_rate`. -/
lemma imputeRow_fields (rows : List PVRow) (r : PVRow) :
    (imputeRow rows r).country = r.country ∧ (imputeRow rows r).code = r.code ∧
    (imputeRow rows r).year = r.year ∧ (imputeRow rows r).num_cases = r.num_cases ∧
    (imputeRow rows r).region = r.region ∧
    (imputeRow rows r).income_group = r.income_group ∧
    (imputeRow rows r).total_pop = r.total_pop ∧
    (imputeRow rows r).cases_per_million = r.cases_per_million := by
  rcases hp : r.pol3_immunization_rate with _ | v <;>
    rcases hm : country_means rows r.country with _ | m <;>
      simp [imputeRow, hp, hm]

/-- The imputation step keeps the country column. -/
lemma imputeRow_country (rows : List PVRow) (r : PVRow) :
    (imputeRow rows r).country = r.country :=
  (imputeRow_fields rows r).1

/-- A mean over a column is NaN exactly when there is no non-null entry. -/
lemma meanO_eq_none {l : List ℚ} : meanO l = none ↔ l = [] := by
  unfold meanO
  split_ifs with h <;> simp [h]

/-- A country with no non-null vaccination rate still has none after the
imputation pass. -/
lemma countryRates_impute (rows : List PVRow) (c : String)
    (h : countryRates rows c = []) : countryRates (impute rows) c = [] := by
  have hall : ∀ a ∈ rows.filter (fun r => decide (r.country = c)),
      a.pol3_immunization_rate = none := by
    unfold countryRates at h
    exact List.filterMap_eq_nil_iff.1 h
  unfold countryRates impute
  rw [List.filter_map, List.filterMap_map, List.filterMap_eq_nil_iff]
  intro r hr
  rw [List.mem_filter] at hr
  have hc : r.country = c := by
    have h2 := hr.2
    simp only [Function.comp_apply, imputeRow_country, decide_eq_true_eq] at h2
    exact h2
  have hp := hall r (List.mem_filter.2 ⟨hr.1, by simpa using hc⟩)
  have hmean : country_means rows r.country = none := by
    rw [hc]
    unfold country_means
    rw [h]
    rfl
  simp [Function.comp_apply, imputeRow, hp, hmean]

/-- C4: the per-country-mean imputation is idempotent — applying it to an
already-imputed table changes nothing. -/
theorem C4_impute_idempotent (rows : List PVRow) : impute (impute rows) = impute rows := by
  show (impute rows).map (imputeRow (impute rows)) = impute rows
  conv_lhs => rw [show impute rows = rows.map (imputeRow rows) from rfl]
  rw [List.map_map]
  refine List.map_congr_left (fun r _ => ?_)
  show imputeRow (impute rows) (imputeRow rows r) = imputeRow rows r
  rcases hp : r.pol3_immunization_rate with _ | v
  · rcases hm : country_means rows r.country with _ | m
    · have hrates : countryRates rows r.country = [] :=
        meanO_eq_none.1 (by simpa [country_means] using hm)
      have h2 : country_means (impute rows) r.country = none := by
        unfold country_means
        rw [countryRates_impute rows r.country hrates]
        rfl
      have hr1 : imputeRow rows r = r := by simp [imputeRow, hp, hm]
      rw [hr1]
      simp [imputeRow, hp, h2]
    · have hr1 : imputeRow rows r = { r with pol3_immunization_rate := some m } := by
        simp [imputeRow, hp, hm]
      rw [hr1]
      simp [imputeRow]
  · have hr1 : imputeRow rows r = r := by simp [imputeRow, hp]
    rw [hr1]
    simp [imputeRow, hp]

/-- C5: positionally, the imputer keeps every non-null
`pol3_immunization_rate`, replaces every null one with the country mean
(leaving it null when the mean is null), the mean is null exactly when the
country has no non-null rate, and a non-null mean is the sum of the
country's non-null rates divided by their count. -/
theorem C5_impute_fill (rows : List PVRow) :
    ∀ q ∈ rows.zip (impute rows),
      (∀ v : ℚ, q.1.pol3_immunization_rate = some v →
        q.2.pol3_immunization_rate = some v) ∧
      (q.1.pol3_immunization_rate = none →
        q.2.pol3_immunization_rate = country_means rows q.1.country) ∧
      (country_means rows q.1.country = none ↔ countryRates rows q.1.country = []) ∧
      (countryRates rows q.1.country ≠ [] →
        country_means rows q.1.country =
          some ((countryRates rows q.1.country).sum /
            ((countryRates rows q.1.country).length : ℚ))) := by
  intro q hq
  have hz := zip_map_self (imputeRow rows) rows q (by simpa [impute] using hq)
  refine ⟨?_, ?_, meanO_eq_none, ?_⟩
  · intro v hv
    rw [hz.1]
    simp [imputeRow, hv]
  · intro hv
    rw [hz.1]
    rcases hm : country_means rows q.1.country with _ | m
    · simp [imputeRow, hv, hm]
    · simp [imputeRow, hv, hm]
  · intro hne
    unfold country_means meanO
    rw [if_neg hne]




/-- C5 witness: on `exC5` the null cell of the second row is replaced by the
country mean. -/
theorem C5_witness :
    exC5row2i.pol3_immunization_rate = country_means exC5 exC5row2.country := by
  have h := C5_impute_fill exC5 (exC5row2, exC5row2i) (by decide)
  exact h.2.1 rfl

/-- C10: the imputer returns a table of the same length whose rows, taken
positionally, agree with the input on every column other than
`pol3_immunization_rate`. -/
theorem C10_impute_frame (rows : List PVRow) :
    (impute rows).length = rows.length ∧
    ∀ q ∈ rows.zip (impute rows),
      q.2.country = q.1.country ∧ q.2.code = q.1.code ∧ q.2.year = q.1.year ∧
      q.2.num_cases = q.1.num_cases ∧ q.2.region = q.1.region ∧
      q.2.income_group = q.1.income_group ∧ q.2.total_pop = q.1.total_pop ∧
      q.2.cases_per_million = q.1.cases_per_million := by
  refine ⟨by simp [impute], ?_⟩
  intro q hq
  have hz := zip_map_self (imputeRow rows) rows q (by simpa [impute] using hq)
  rw [hz.1]
  exact imputeRow_fields rows q.1

/-- C10 witness: the claim instantiated on the second row of `exC5`. -/
theorem C10_witness :
    exC5row2i.country = exC5row2.country ∧ exC5row2i.code = exC5row2.code ∧
    exC5row2i.year = exC5row2.year ∧ exC5row2i.num_cases = exC5row2.num_cases ∧
    exC5row2i.region = exC5row2.region ∧
    exC5row2i.income_group = exC5row2.income_group ∧
    exC5row2i.total_pop = exC5row2.total_pop ∧
    exC5row2i.cases_per_million = exC5row2.cases_per_million :=
  (C10_impute_frame exC5).2 (exC5row2, exC5row2i) (by decide)

/-- Filtering by a predicate that already holds wherever `f` fires does not
change a `filterMap`. -/
lemma filterMap_filter_eq_self {α β : Type} (f : α → Option β) (q : α → Bool)
    (h : ∀ a, q a = false → f a = none) :
    ∀ l : List α, (l.filter q).filterMap f = l.filterMap f := by
  intro l
  induction l with
  | nil => rfl
  | cons a t ih =>
    cases hq : q a
    · rw [List.filter_cons, hq, if_neg (by simp), List.filterMap_cons, h a hq, ih]
    · rw [List.filter_cons, hq, if_pos (by simp), List.filterMap_cons, List.filterMap_cons, ih]

/-- A filter by `p` absorbs an earlier filter by any predicate `p` implies. -/
lemma filter_filter_eq_self {α : Type} (p q : α → Bool)
    (h : ∀ a, p a = true → q a = true) :
    ∀ l : List α, (l.filter q).filter p = l.filter p := by
  intro l
  induction l with
  | nil => rfl
  | cons a t ih =>
    cases hq : q a
    · have hp : p a = false := by
        cases hpa : p a
        · rfl
        · rw [h a hpa] at hq; cases hq
      rw [List.filter_cons, hq, if_neg (by simp), List.filter_cons, hp, if_neg (by simp), ih]
    · rw [List.filter_cons, hq, if_pos (by simp), List.filter_cons, List.filter_cons, ih]

/-- A row with null `income_group` has no groupby key. -/
lemma mapKeyOf_eq_none {r : PVRow} (h : r.income_group = none) : mapKeyOf r = none := by
  unfold mapKeyOf
  rw [h]
  cases r.code <;> rfl

/-- A row with a groupby key has non-null `income_group`. -/
lemma mapKeyOf_isSome_ig {r : PVRow} {k : MapKey} (h : mapKeyOf r = some k) :
    r.income_group.isSome = true := by
  rcases hi : r.income_group with _ | g
  · rw [mapKeyOf_eq_none hi] at h
    cases h
  · rfl

/-- Dropping the null-`income_group` rows first changes neither the groupby
keys nor the member rows of any group. -/
lemma df_combined_grouped_filter_ig (rows : List PVRow) :
    df_combined_grouped (rows.filter (fun r => r.income_group.isSome)) =
      df_combined_grouped rows := by
  have hkeys : (df_combined (rows.filter (fun r => r.income_group.isSome))).filterMap
      mapKeyOf = (df_combined rows).filterMap mapKeyOf := by
    unfold df_combined
    rw [List.filter_comm]
    exact filterMap_filter_eq_self mapKeyOf _
      (fun a ha => mapKeyOf_eq_none (by
        rcases hi : a.income_group with _ | g
        · rfl
        · rw [hi] at ha; cases ha)) _
  have hgrp : ∀ k, mapGroupRows (rows.filter (fun r => r.income_group.isSome)) k =
      mapGroupRows rows k := by
    intro k
    unfold mapGroupRows df_combined
    rw [List.filter_comm passesMapFilter (fun r => r.income_group.isSome) rows]
    exact filter_filter_eq_self (fun r => decide (mapKeyOf r = some k)) _
      (fun a ha => mapKeyOf_isSome_ig (of_decide_eq_true ha)) _
  unfold df_combined_grouped
  rw [hkeys]
  exact List.map_congr_left (fun k _ => by unfold mapAggRowOf; rw [hgrp k])

/-- The frame list depends on the input only through the aggregate. -/
lemma frames_congr {rows1 rows2 : List PVRow}
    (h : df_combined_grouped rows1 = df_combined_grouped rows2) :
    frames rows1 = frames rows2 := by
  unfold frames frameLayers df_scatter_overlay sorted_period_labels
  rw [h]


/-- C9: rows with null `income_group` are silently excluded from the
period-country aggregate and hence from every animation frame — the
aggregate and the frames are unchanged by dropping them up front — even
though the documented pre-filter of lines 187–188 keeps such rows, as the
concrete row `exC9row` shows. -/
theorem C9_null_income_group_excluded (rows : List PVRow) :
    df_combined_grouped (rows.filter (fun r => r.income_group.isSome)) =
      df_combined_grouped rows ∧
    frames (rows.filter (fun r => r.income_group.isSome)) = frames rows ∧
    passesMapFilter exC9row = true ∧
    exC9row.income_group = none ∧
    df_combined_grouped [exC9row] = [] :=
  ⟨df_combined_grouped_filter_ig rows,
    frames_congr (df_combined_grouped_filter_ig rows), by decide, rfl, by decide⟩

/-- Sorting a deduplicated list ascending yields a strictly increasing list. -/
lemma sortLe_dedup_pairwise {α : Type} [LinearOrder α] (l : List α) :
    (List.insertionSort (fun a b : α => a ≤ b) l.dedup).Pairwise (· < ·) := by
  have hs : List.Sorted (fun a b : α => a ≤ b)
      (List.insertionSort (fun a b : α => a ≤ b) l.dedup) :=
    List.sorted_insertionSort _ _
  have hn : (List.insertionSort (fun a b : α => a ≤ b) l.dedup).Nodup :=
    (List.perm_insertionSort _ _).symm.nodup (List.nodup_dedup l)
  exact (List.Pairwise.and hs hn).imp (fun h => lt_of_le_of_ne h.1 h.2)

/-- Sorting a deduplicated list keeps exactly the original members. -/
lemma mem_sortLe_dedup {α : Type} [LinearOrder α] {a : α} (l : List α) :
    a ∈ List.insertionSort (fun x y : α => x ≤ y) l.dedup ↔ a ∈ l :=
  ((List.perm_insertionSort _ _).mem_iff).trans List.mem_dedup

/-- C2 counterexample: on the concrete input `exC2` — one period whose only
country has map coordinates, one period whose only country does not — the
1983–1985 frame carries only a choropleth layer while the 1980–1982 frame
carries a choropleth and a point layer, so the frames are not structurally
uniform. -/
theorem C2_counterexample :
    frames exC2 =
      [(1980, [LayerKind.choropleth, LayerKind.point]),
       (1983, [LayerKind.choropleth])] ∧
    ¬ ∀ f ∈ frames exC2, f.2 = [LayerKind.choropleth, LayerKind.point] := by
  decide

/-- C2 (amended): the animated map builder emits exactly one frame per
distinct period label in strictly ascending order, and each frame carries a
choropleth layer followed by a point layer exactly when the period has at
least one scatter-overlay row (known coordinates and non-negative
cases-per-million); a period with no such row yields a choropleth-only
frame, so frames need not be structurally uniform. -/
theorem C2_amended (rows : List PVRow) :
    (frames rows).map Prod.fst = sorted_period_labels rows ∧
    (sorted_period_labels rows).Pairwise (· < ·) ∧
    (∀ p : Int, p ∈ sorted_period_labels rows ↔
      ∃ a ∈ df_combined_grouped rows, a.year_group = p) ∧
    ∀ f ∈ frames rows,
      f.2 = LayerKind.choropleth ::
        (if (df_scatter_overlay rows).filter (fun a => a.year_group = f.1) = []
         then [] else [LayerKind.point]) := by
  refine ⟨?_, ?_, ?_, ?_⟩
  · unfold frames
    rw [List.map_map]
    rw [show (Prod.fst ∘ fun p : Int => (p, frameLayers rows p)) = fun p : Int => p
      from rfl]
    exact List.map_id' _
  · exact sortLe_dedup_pairwise _
  · intro p
    unfold sorted_period_labels
    rw [mem_sortLe_dedup]
    exact List.mem_map
  · intro f hf
    unfold frames at hf
    rw [List.mem_map] at hf
    obtain ⟨p, _, rfl⟩ := hf
    rfl

/-- C2 witness: the amended layer rule instantiated on the 1980–1982 frame
of the concrete input `exC2`. -/
theorem C2_witness :
    ([LayerKind.choropleth, LayerKind.point] : List LayerKind) =
      LayerKind.choropleth ::
        (if (df_scatter_overlay exC2).filter (fun a => a.year_group = (1980 : Int)) = []
         then [] else [LayerKind.point]) :=
  (C2_amended exC2).2.2.2 (1980, [LayerKind.choropleth, LayerKind.point]) (by decide)

/-- Head characterisation of the code-point order. -/
lemma charListLe_cons_iff {c d : Char} {cs ds : List Char} :
    charListLe (c :: cs) (d :: ds) = true ↔
      (c < d ∨ (c = d ∧ charListLe cs ds = true)) := by
  show (if c < d then true else if d < c then false else charListLe cs ds) = true ↔ _
  split_ifs with h1 h2
  · simp [h1]
  · simp [h1, (ne_of_gt h2)]
  · have hcd : c = d := le_antisymm (not_lt.1 h2) (not_lt.1 h1)
    simp [h1, hcd]

/-- The code-point order is total. -/
lemma charListLe_total : ∀ l1 l2 : List Char,
    charListLe l1 l2 = true ∨ charListLe l2 l1 = true := by
  intro l1
  induction l1 with
  | nil => intro l2; left; rfl
  | cons c cs ih =>
    intro l2
    cases l2 with
    | nil => right; rfl
    | cons d ds =>
      rcases lt_trichotomy c d with h | h | h
      · left
        rw [charListLe_cons_iff]
        exact Or.inl h
      · rcases ih ds with h2 | h2
        · left
          rw [charListLe_cons_iff]
          exact Or.inr ⟨h, h2⟩
        · right
          rw [charListLe_cons_iff]
          exact Or.inr ⟨h.symm, h2⟩
      · right
        rw [charListLe_cons_iff]
        exact Or.inl h

/-- The code-point order is transitive. -/
lemma charListLe_trans : ∀ l1 l2 l3 : List Char,
    charListLe l1 l2 = true → charListLe l2 l3 = true → charListLe l1 l3 = true := by
  intro l1
  induction l1 with
  | nil => intro l2 l3 _ _; rfl
  | cons c cs ih =>
    intro l2 l3 h12 h23
    cases l2 with
    | nil => exact absurd h12 (by simp [charListLe])
    | cons d ds =>
      cases l3 with
      | nil => exact absurd h23 (by simp [charListLe])
      | cons e es =>
        rw [charListLe_cons_iff] at h12 h23 ⊢
        rcases h12 with h12 | ⟨hcd, h12t⟩
        · rcases h23 with h23 | ⟨hde, _⟩
          · exact Or.inl (lt_trans h12 h23)
          · exact Or.inl (hde ▸ h12)
        · rcases h23 with h23 | ⟨hde, h23t⟩
          · exact Or.inl (hcd ▸ h23)
          · exact Or.inr ⟨hcd.trans hde, ih ds es h12t h23t⟩

/-- The pivot column order is strictly increasing (sorted and distinct). -/
lemma stacked_columns_pairwise (rows : List IncomeAggRow) :
    (stacked_columns rows).Pairwise strLt := by
  have ht : IsTotal String strLe := ⟨fun a b => charListLe_total a.data b.data⟩
  have htr : IsTrans String strLe := ⟨fun a b c => charListLe_trans a.data b.data c.data⟩
  have hs : (stacked_columns rows).Sorted strLe :=
    @List.sorted_insertionSort String strLe _ ht htr _
  have hn : (stacked_columns rows).Nodup :=
    (List.perm_insertionSort _ _).symm.nodup (List.nodup_dedup _)
  exact List.Pairwise.and hs hn


/-- In a `descKey`-sorted list the means are non-increasing. -/
lemma descKey_le {m : String → ℚ} {a b : String} (h : descKey m a b) : m b ≤ m a := by
  rcases h with h | ⟨h, _⟩
  · exact h.le
  · exact h.ge

/-- Inserting an element that is alphabetically below a `descKey`-sorted
list by the descending mean comparison keeps the list `descKey`-sorted. -/
lemma sorted_orderedInsert_desc (m : String → ℚ) (a : String) :
    ∀ l : List String, l.Sorted (descKey m) → (∀ b ∈ l, strLt a b) →
      (List.orderedInsert (fun x y => m y ≤ m x) a l).Sorted (descKey m) := by
  intro l
  induction l with
  | nil =>
    intro _ _
    exact List.sorted_singleton _
  | cons b t ih =>
    intro hs ha
    show (if m b ≤ m a then a :: b :: t
          else b :: List.orderedInsert (fun x y => m y ≤ m x) a t).Sorted (descKey m)
    split_ifs with h
    · rw [List.sorted_cons]
      refine ⟨?_, hs⟩
      intro c hc
      have hac : strLt a c := ha c hc
      have hcb : m c ≤ m b := by
        rcases List.mem_cons.1 hc with rfl | hc'
        · exact le_refl _
        · exact descKey_le (List.rel_of_sorted_cons hs c hc')
      rcases lt_or_eq_of_le (le_trans hcb h) with hlt | heq
      · exact Or.inl hlt
      · exact Or.inr ⟨heq.symm, hac⟩
    · rw [List.sorted_cons]
      constructor
      · intro c hc
        rcases (List.mem_orderedInsert _).1 hc with rfl | hc'
        · exact Or.inl (not_le.1 h)
        · exact List.rel_of_sorted_cons hs c hc'
      · exact ih hs.of_cons (fun x hx => ha x (List.mem_cons_of_mem _ hx))

/-- The stable descending insertion sort of a strictly alphabetical list is
`descKey`-sorted: descending by mean, ties in the original order. -/
lemma sorted_insertionSort_desc (m : String → ℚ) :
    ∀ l : List String, l.Pairwise strLt →
      (List.insertionSort (fun x y => m y ≤ m x) l).Sorted (descKey m) := by
  intro l
  induction l with
  | nil => intro _; exact List.sorted_nil
  | cons a t ih =>
    intro hp
    rw [List.pairwise_cons] at hp
    show (List.orderedInsert (fun x y => m y ≤ m x) a
      (List.insertionSort (fun x y => m y ≤ m x) t)).Sorted (descKey m)
    exact sorted_orderedInsert_desc m a _ (ih hp.2)
      (fun b hb => hp.1 b ((List.perm_insertionSort _ t).subset hb))


/-- C6: the stacked-area builder orders the income groups by strictly
descending column mean, breaking ties by (ascending) original pivot column
order, the emitted order is a permutation of the pivot columns (so it is a
deterministic total order of the series), and on mean values
A = 5, B = 10, C = 1 the order is [B, A, C]. -/
theorem C6_stacking_order (rows : List IncomeAggRow) :
    (income_groups rows).Sorted (descKey (income_group_averages rows)) ∧
    (income_groups rows).Perm (stacked_columns rows) ∧
    income_groups exC6 = ["B", "A", "C"] :=
  ⟨sorted_insertionSort_desc _ _ (stacked_columns_pairwise rows),
    List.perm_insertionSort _ _, by decide⟩
